import Mathlib

/-!
Verification of the dual-tier client-side persistence layer of the repository
(`src/app/lib/clientStorage.ts`): an IndexedDB-backed primary tier with a
localStorage fallback tier.

Shallow embedding: both tiers are association lists from string keys to string
values (IndexedDB's object store keyed by the `key` field, and localStorage's
flat key-to-string mapping with positional enumeration).  Effectful operations
pass the store state explicitly.  Promise rejection / thrown exceptions are
modelled with `Except Unit`; a `Faults` record injects, per public call, the
failure modes the source guards against:

* `idbFail` — the single `withStore` call of the operation rejects (covers
  `openDb` rejection when IndexedDB is unavailable, connection errors, and
  request/transaction errors; the source collapses all of these into one
  `catch`).  A failed readwrite transaction aborts, so the store is unchanged.
* `lsAvailable` — whether `safeLocalStorage()` yields the storage object
  (`false` covers both the non-browser case and a throwing
  `window.localStorage` accessor, which the source maps to `null`).
* `lsSetFail` — `ls.setItem` throws (QuotaExceededError).
* `lsEnumFailAt = some n` — enumerating localStorage (`ls.length` / `ls.key`)
  throws when reaching position `n`; `none` means enumeration completes.
  Per the Web Storage contract, `getItem` and `removeItem` do not throw, and
  the source relies on this (its `ls.getItem` calls are unguarded).
-/

namespace ClientStorage

/-- A tier's contents: an ordered association list of (key, value) entries.
Order matters only for localStorage's positional enumeration (`ls.key(i)`). -/
abbrev Store := List (String × String)

/-- Look a key up in a tier (IndexedDB `store.get` / localStorage `getItem`):
the value of the first entry with that key, or `none`. -/
def storeGet (s : Store) (k : String) : Option String :=
  match s.find? (fun e => e.1 == k) with
  | some e => some e.2
  | none => none

/-- Overwrite-or-insert (IndexedDB `store.put` with `keyPath: 'key'` /
localStorage `setItem`): replaces the entry with the same key in place,
otherwise appends a fresh entry. -/
def aListPut : Store → String → String → Store
  | [], k, v => [(k, v)]
  | e :: rest, k, v =>
    if e.1 == k then (k, v) :: rest else e :: aListPut rest k v

/-- Delete by key (IndexedDB `store.delete` / localStorage `removeItem`). -/
def aListRemove (s : Store) (k : String) : Store :=
  s.filter (fun e => !(e.1 == k))

/-- JavaScript's `k.startsWith(pre)`: `pre` is a prefix of `k`, on the
character sequences of the two strings. -/
def strStartsWith (k pre : String) : Bool :=
  List.isPrefixOf pre.data k.data

/-- The persistent state visible across calls: the contents of the primary
tier (IndexedDB object store `kv` of database `chathtml`) and of the fallback
tier (localStorage). -/
structure Storage where
  idb : Store
  ls : Store
deriving DecidableEq, Repr

/-- Per-call fault injection, one field per failure point the source code
guards (see the module docstring). -/
structure Faults where
  idbFail : Bool
  lsAvailable : Bool
  lsSetFail : Bool
  lsEnumFailAt : Option Nat
deriving DecidableEq, Repr

/-- `safeLocalStorage()`: returns the localStorage contents when available,
`none` when outside a browser or when accessing `window.localStorage` throws. -/
def safeLocalStorage (f : Faults) (st : Storage) : Option Store :=
  if f.lsAvailable then some st.ls else none

/-- `idbGetString(key)`: one readonly `withStore` call; on success,
`entry?.value ?? null` — the stored string (including the empty string) or
`null` when no entry exists. -/
def idbGetString (f : Faults) (st : Storage) (key : String) :
    Except Unit (Option String) :=
  if f.idbFail then .error () else .ok (storeGet st.idb key)

/-- `idbSetString(key, value)`: one readwrite `withStore` call performing
`store.put({ key, value })`.  On rejection the transaction aborts and the
store is unchanged. -/
def idbSetString (f : Faults) (st : Storage) (key value : String) :
    Except Unit Storage :=
  if f.idbFail then .error ()
  else .ok { st with idb := aListPut st.idb key value }

/-- `idbRemove(key)`: one readwrite `withStore` call performing
`store.delete(key)`. -/
def idbRemove (f : Faults) (st : Storage) (key : String) :
    Except Unit Storage :=
  if f.idbFail then .error ()
  else .ok { st with idb := aListRemove st.idb key }

/-- `idbKeysWithPrefix(prefix)`: `store.getAllKeys()` then keep the keys that
start with the prefix.  All stored keys are strings (they were written by
`put` from a string `key` field), so the `typeof k === 'string'` coercion step
is the identity here. -/
def idbKeysWithPrefix (f : Faults) (st : Storage) (pfx : String) :
    Except Unit (List String) :=
  if f.idbFail then .error ()
  else .ok ((st.idb.map Prod.fst).filter (fun k => strStartsWith k pfx))

/-- The localStorage scan of `keysWithPrefix`'s fallback path:
`for (i = 0; i < ls.length; i++) { k = ls.key(i); if (k && k.startsWith(prefix)) keys.push(k) }`
inside a `try`.  `failAt = some n` models the enumeration throwing upon
reaching position `n`: the keys pushed before that point survive, because the
accumulator is declared outside the `try` and the `catch` ignores the error.
The `k &&` truthiness test skips an empty-string key. -/
def lsScanWithPrefix (entries : Store) (pfx : String) (failAt : Option Nat) :
    List String :=
  let limit := match failAt with
    | some n => min n entries.length
    | none => entries.length
  ((entries.take limit).map Prod.fst).filter
    (fun k => !(k == "") && strStartsWith k pfx)

/-- Public `getString(key)`: try the primary tier; a non-null value is
returned at once; on `null` or on rejection, fall through to
`ls ? ls.getItem(key) : null`. -/
def getString (f : Faults) (st : Storage) (key : String) :
    Except Unit (Option String) :=
  let fb : Option String :=
    match safeLocalStorage f st with
    | some ls => storeGet ls key
    | none => none
  match idbGetString f st key with
  | .ok (some v) => .ok (some v)
  | .ok none => .ok fb
  | .error _ => .ok fb

/-- Public `setString(key, value)`: try the primary tier and return on
success; on rejection fall back to `ls.setItem`, whose own failure
(QuotaExceededError) is logged and swallowed. -/
def setString (f : Faults) (st : Storage) (key value : String) :
    Except Unit Storage :=
  match idbSetString f st key value with
  | .ok st1 => .ok st1
  | .error _ =>
    match safeLocalStorage f st with
    | none => .ok st
    | some ls =>
      if f.lsSetFail then .ok st
      else .ok { st with ls := aListPut ls key value }

/-- Public `remove(key)`: try the primary-tier delete (rejection ignored),
then always `ls?.removeItem(key)` (its `try`/`catch` is dead code, as
`removeItem` does not throw). -/
def remove (f : Faults) (st : Storage) (key : String) : Except Unit Storage :=
  let st1 := match idbRemove f st key with
    | .ok st2 => st2
    | .error _ => st
  match safeLocalStorage f st1 with
  | some ls => .ok { st1 with ls := aListRemove ls key }
  | none => .ok st1

/-- Public `keysWithPrefix(prefix)`: return the primary-tier scan when it
succeeds (even when empty); on rejection, enumerate localStorage, returning
whatever was accumulated if the enumeration itself throws, and `[]` when
localStorage is unavailable. -/
def keysWithPrefix (f : Faults) (st : Storage) (pfx : String) :
    Except Unit (List String) :=
  match idbKeysWithPrefix f st pfx with
  | .ok ks => .ok ks
  | .error _ =>
    match safeLocalStorage f st with
    | none => .ok []
    | some ls => .ok (lsScanWithPrefix ls pfx f.lsEnumFailAt)

/-- Public `migrateLocalStorageKeyToIdb(key)`: read the key from localStorage
(unguarded `getItem`); if absent (`v == null`), return; otherwise write it to
the primary tier and, only after that write resolves, `ls.removeItem(key)`.
A rejection of the primary-tier write is caught and localStorage is left
as-is. -/
def migrateLocalStorageKeyToIdb (f : Faults) (st : Storage) (key : String) :
    Except Unit Storage :=
  match safeLocalStorage f st with
  | none => .ok st
  | some ls =>
    match storeGet ls key with
    | none => .ok st
    | some v =>
      match idbSetString f st key v with
      | .ok st1 => .ok { st1 with ls := aListRemove st1.ls key }
      | .error _ => .ok st

/-! ### Helper lemmas about the association-list tiers -/

theorem storeGet_aListPut_self (s : Store) (k v : String) :
    storeGet (aListPut s k v) k = some v := by
  induction s with
  | nil => simp [aListPut, storeGet, List.find?]
  | cons e rest ih =>
    cases hk : (e.1 == k) with
    | true => simp [aListPut, hk, storeGet, List.find?]
    | false => simpa [aListPut, hk, storeGet, List.find?] using ih

theorem storeGet_aListRemove_self (s : Store) (k : String) :
    storeGet (aListRemove s k) k = none := by
  induction s with
  | nil => simp [aListRemove, storeGet, List.find?]
  | cons e rest ih =>
    cases hk : (e.1 == k) with
    | true => simpa [aListRemove, List.filter_cons, hk] using ih
    | false => simpa [aListRemove, List.filter_cons, hk, storeGet, List.find?] using ih

/-- The fallback read `getString` falls through to:
`ls ? ls.getItem(key) : null`. -/
def fallbackGet (f : Faults) (st : Storage) (key : String) : Option String :=
  match safeLocalStorage f st with
  | some ls => storeGet ls key
  | none => none

/-! ### Claim theorems -/

/-- Claim C1: with the primary tier available and its write succeeding,
`setString` returns right after the primary write and never writes the
fallback tier: after `set(k, v1)` then `set(k, v2)`, the fallback tier is
byte-for-byte unchanged and in particular holds no entry for `k`, assuming it
held none before. -/
theorem C1_set_twice_never_touches_fallback (f : Faults) (st st1 st2 : Storage)
    (k v1 v2 : String)
    (hf : f.idbFail = false)
    (h0 : storeGet st.ls k = none)
    (h1 : setString f st k v1 = .ok st1)
    (h2 : setString f st1 k v2 = .ok st2) :
    st2.ls = st.ls ∧ storeGet st2.ls k = none := by
  simp only [setString, idbSetString, hf, Bool.false_eq_true, if_false,
    Except.ok.injEq] at h1 h2
  subst h1
  subst h2
  exact ⟨rfl, h0⟩

/-- Claim C1 witness: a concrete run of the two writes with the primary tier
healthy, checking the fallback tier ends without an entry for the key. -/
theorem C1_witness :
    storeGet (Storage.mk [] [("other", "x")]).ls "k" = none ∧
    storeGet (Storage.mk [("k", "b")] [("other", "x")]).ls "k" = none := by
  refine ⟨by decide, ?_⟩
  exact (C1_set_twice_never_touches_fallback
    (Faults.mk false true false none)
    (Storage.mk [] [("other", "x")])
    (Storage.mk [("k", "a")] [("other", "x")])
    (Storage.mk [("k", "b")] [("other", "x")])
    "k" "a" "b" rfl (by decide) rfl rfl).2

/-- Claim C2: when the fallback tier holds `(k, v)` and the primary-tier
write succeeds, `migrateLocalStorageKeyToIdb(k)` leaves the primary tier
holding `(k, v)` and the fallback tier no longer holding `k`. -/
theorem C2_migration_moves_entry (f : Faults) (st : Storage) (k v : String)
    (hf : f.idbFail = false) (hav : f.lsAvailable = true)
    (hv : storeGet st.ls k = some v) :
    ∃ st1, migrateLocalStorageKeyToIdb f st k = .ok st1 ∧
      storeGet st1.idb k = some v ∧ storeGet st1.ls k = none := by
  have hrun : migrateLocalStorageKeyToIdb f st k =
      .ok (Storage.mk (aListPut st.idb k v) (aListRemove st.ls k)) := by
    simp [migrateLocalStorageKeyToIdb, safeLocalStorage, hav, hv,
      idbSetString, hf]
  exact ⟨_, hrun, storeGet_aListPut_self _ _ _, storeGet_aListRemove_self _ _⟩

/-- Claim C2 witness: a concrete migration of a legacy value. -/
theorem C2_witness :
    ∃ st1, migrateLocalStorageKeyToIdb (Faults.mk false true false none)
        (Storage.mk [] [("k", "legacy-value")]) "k" = .ok st1 ∧
      storeGet st1.idb "k" = some "legacy-value" ∧
      storeGet st1.ls "k" = none :=
  C2_migration_moves_entry (Faults.mk false true false none)
    (Storage.mk [] [("k", "legacy-value")]) "k" "legacy-value"
    rfl rfl (by decide)

/-- Claim C3: when the fallback tier holds `(k, v)` and the primary-tier
write fails, `migrateLocalStorageKeyToIdb(k)` leaves the whole state (and in
particular the fallback entry) unchanged and raises no error. -/
theorem C3_migration_intact_on_primary_failure (f : Faults) (st : Storage)
    (k v : String)
    (hf : f.idbFail = true) (hv : storeGet st.ls k = some v) :
    migrateLocalStorageKeyToIdb f st k = .ok st := by
  cases hav : f.lsAvailable with
  | false => simp [migrateLocalStorageKeyToIdb, safeLocalStorage, hav]
  | true =>
    simp [migrateLocalStorageKeyToIdb, safeLocalStorage, hav, hv,
      idbSetString, hf]

/-- Claim C3 witness: a concrete failed migration leaving the state intact. -/
theorem C3_witness :
    migrateLocalStorageKeyToIdb (Faults.mk true true false none)
      (Storage.mk [] [("k", "legacy-value")]) "k" =
      .ok (Storage.mk [] [("k", "legacy-value")]) :=
  C3_migration_intact_on_primary_failure (Faults.mk true true false none)
    (Storage.mk [] [("k", "legacy-value")]) "k" "legacy-value"
    rfl (by decide)

/-- Claim C6: no public operation ever surfaces an error, for every key,
every value, every prefix and every combination of injected tier failures:
each of `getString`, `setString`, `remove`, `keysWithPrefix` and
`migrateLocalStorageKeyToIdb` returns an `ok` result. -/
theorem C6_no_exception_crosses_public_boundary (f : Faults) (st : Storage)
    (k pfx v : String) :
    (∃ r, getString f st k = .ok r) ∧
    (∃ st1, setString f st k v = .ok st1) ∧
    (∃ st1, remove f st k = .ok st1) ∧
    (∃ ks, keysWithPrefix f st pfx = .ok ks) ∧
    (∃ st1, migrateLocalStorageKeyToIdb f st k = .ok st1) := by
  refine ⟨?_, ?_, ?_, ?_, ?_⟩ <;>
    cases hf : f.idbFail <;> cases hav : f.lsAvailable <;>
    cases hq : f.lsSetFail <;>
    cases hg : storeGet st.idb k <;> cases hl : storeGet st.ls k <;>
    simp [getString, setString, remove, keysWithPrefix,
      migrateLocalStorageKeyToIdb, idbGetString, idbSetString, idbRemove,
      idbKeysWithPrefix, safeLocalStorage, hf, hav, hq, hg, hl]

/-- Claim C4: `getString` tries the primary tier first (a present primary
value is returned as-is); whenever the primary read fails or finds nothing,
it returns exactly the fallback read `ls ? ls.getItem(key) : null`, and a
primary-tier failure is never surfaced as an error. -/
theorem C4_get_falls_back_on_failure_or_absent (f : Faults) (st : Storage)
    (k : String) :
    (∀ v, f.idbFail = false → storeGet st.idb k = some v →
      getString f st k = .ok (some v)) ∧
    ((f.idbFail = true ∨ storeGet st.idb k = none) →
      getString f st k = .ok (fallbackGet f st k)) := by
  constructor
  · intro v hf hg
    simp [getString, idbGetString, hf, hg]
  · rintro (hf | hg)
    · simp [getString, idbGetString, hf, fallbackGet]
    · cases hf : f.idbFail with
      | true => simp [getString, idbGetString, hf, fallbackGet]
      | false => simp [getString, idbGetString, hf, hg, fallbackGet]

/-- Claim C4 witness: with the primary tier failing, a concrete `getString`
returns the fallback tier's value, with no error. -/
theorem C4_witness :
    getString (Faults.mk true true false none) (Storage.mk [] [("k", "v")])
      "k" = .ok (some "v") :=
  ((C4_get_falls_back_on_failure_or_absent (Faults.mk true true false none)
    (Storage.mk [] [("k", "v")]) "k").2 (Or.inl rfl)).trans rfl

/-- Claim C5: with the primary tier available, `keysWithPrefix` succeeds and
its result holds exactly the primary-tier keys that start with the prefix —
in particular no key that lives only in the fallback tier, whatever the
fallback tier holds (no merging of tiers). -/
theorem C5_keysWithPrefix_is_tier_exclusive (f : Faults) (st : Storage)
    (pfx : String) (hf : f.idbFail = false) :
    ∃ ks, keysWithPrefix f st pfx = .ok ks ∧
      ∀ k, k ∈ ks ↔ (k ∈ st.idb.map Prod.fst ∧ strStartsWith k pfx = true) := by
  refine ⟨(st.idb.map Prod.fst).filter (fun k => strStartsWith k pfx), ?_, ?_⟩
  · simp [keysWithPrefix, idbKeysWithPrefix, hf]
  · intro k
    simp [List.mem_filter]

/-- Claim C5 witness: the spec's own P7 scenario — primary tier holds
`doc-1`, `doc-2`, `other` and the fallback tier holds `doc-3`; the scan
returns exactly `doc-1`, `doc-2` and never `doc-3`. -/
theorem C5_witness :
    keysWithPrefix (Faults.mk false true false none)
      (Storage.mk [("doc-1", "a"), ("doc-2", "b"), ("other", "c")]
        [("doc-3", "d")]) "doc-" = .ok ["doc-1", "doc-2"] ∧
    ∃ ks, keysWithPrefix (Faults.mk false true false none)
        (Storage.mk [("doc-1", "a"), ("doc-2", "b"), ("other", "c")]
          [("doc-3", "d")]) "doc-" = .ok ks ∧
      ∀ k, k ∈ ks ↔
        (k ∈ (Storage.mk [("doc-1", "a"), ("doc-2", "b"), ("other", "c")]
          [("doc-3", "d")]).idb.map Prod.fst ∧ strStartsWith k "doc-" = true) :=
  ⟨rfl, C5_keysWithPrefix_is_tier_exclusive (Faults.mk false true false none)
    (Storage.mk [("doc-1", "a"), ("doc-2", "b"), ("other", "c")]
      [("doc-3", "d")]) "doc-" rfl⟩

/-- Claim C7 counterexample: with the primary tier unavailable and the
fallback enumeration throwing after the first entry, `keysWithPrefix`
returns the non-empty partial result `["p1"]`, not the empty sequence the
claim states. -/
theorem C7_counterexample :
    keysWithPrefix (Faults.mk true true false (some 1))
      (Storage.mk [] [("p1", "x"), ("p2", "y")]) "p" = .ok ["p1"] ∧
    (Except.ok ["p1"] : Except Unit (List String)) ≠ .ok [] :=
  ⟨rfl, by simp⟩

/-- Claim C7 amended: when the primary tier is unavailable and the
fallback-tier enumeration fails upon reaching position `n`, `keysWithPrefix`
returns the matching keys accumulated before the failure — an initial
segment of the full fallback scan — and this is the empty sequence exactly
when the failure strikes before any entry was read (`n = 0`); a mid-scan
failure can yield a non-empty partial result. -/
theorem C7_amended_partial_scan_on_enum_failure (f : Faults) (st : Storage)
    (pfx : String) (n : Nat)
    (hf : f.idbFail = true) (hav : f.lsAvailable = true)
    (he : f.lsEnumFailAt = some n) :
    ∃ rest,
      keysWithPrefix f st pfx = .ok (lsScanWithPrefix st.ls pfx (some n)) ∧
      lsScanWithPrefix st.ls pfx (some n) ++ rest =
        lsScanWithPrefix st.ls pfx none ∧
      (n = 0 → lsScanWithPrefix st.ls pfx (some n) = []) := by
  refine ⟨((st.ls.drop (min n st.ls.length)).map Prod.fst).filter
      (fun k => !(k == "") && strStartsWith k pfx), ?_, ?_, ?_⟩
  · simp [keysWithPrefix, idbKeysWithPrefix, hf, safeLocalStorage, hav, he]
  · simp only [lsScanWithPrefix, ← List.filter_append, ← List.map_append,
      List.take_append_drop, List.take_length]
  · intro hn
    simp [lsScanWithPrefix, hn]

/-- Claim C7 amended witness: the enumeration failing at position 0 does
give the empty sequence on the same state as the counterexample. -/
theorem C7_witness :
    ∃ rest,
      keysWithPrefix (Faults.mk true true false (some 0))
        (Storage.mk [] [("p1", "x"), ("p2", "y")]) "p" =
        .ok (lsScanWithPrefix [("p1", "x"), ("p2", "y")] "p" (some 0)) ∧
      lsScanWithPrefix [("p1", "x"), ("p2", "y")] "p" (some 0) ++ rest =
        lsScanWithPrefix [("p1", "x"), ("p2", "y")] "p" none ∧
      (0 = 0 → lsScanWithPrefix [("p1", "x"), ("p2", "y")] "p" (some 0) = []) :=
  C7_amended_partial_scan_on_enum_failure (Faults.mk true true false (some 0))
    (Storage.mk [] [("p1", "x"), ("p2", "y")]) "p" 0 rfl rfl rfl

/-- Claim C8: the empty string is a value, not absence — after
`setString(k, "")` succeeds on the primary tier, `getString(k)` returns
`some ""` (not `none`), and does so whatever the fallback tier holds (the
fallback tier is not consulted). -/
theorem C8_empty_string_value_not_absence (f : Faults) (st : Storage)
    (k : String) (hf : f.idbFail = false) :
    ∃ st1, setString f st k "" = .ok st1 ∧
      getString f st1 k = .ok (some "") ∧
      ∀ ls2, getString f (Storage.mk st1.idb ls2) k = .ok (some "") := by
  refine ⟨Storage.mk (aListPut st.idb k "") st.ls, ?_, ?_, ?_⟩
  · simp [setString, idbSetString, hf]
  · simp [getString, idbGetString, hf, storeGet_aListPut_self]
  · intro ls2
    simp [getString, idbGetString, hf, storeGet_aListPut_self]

/-- Claim C8 witness: a concrete empty-string round trip, with a fallback
entry for the same key that is correctly shadowed by the primary `""`. -/
theorem C8_witness :
    ∃ st1, setString (Faults.mk false true false none)
        (Storage.mk [] [("k", "shadow")]) "k" "" = .ok st1 ∧
      getString (Faults.mk false true false none) st1 "k" = .ok (some "") ∧
      ∀ ls2, getString (Faults.mk false true false none)
        (Storage.mk st1.idb ls2) "k" = .ok (some "") :=
  C8_empty_string_value_not_absence (Faults.mk false true false none)
    (Storage.mk [] [("k", "shadow")]) "k" rfl

/-- Claim C9: every key in a sequence returned by `keysWithPrefix` — on the
primary-tier path as well as on the fallback path, failing or not — starts
with the requested prefix. -/
theorem C9_every_returned_key_has_the_asked_start (f : Faults) (st : Storage)
    (pfx : String) (ks : List String)
    (h : keysWithPrefix f st pfx = .ok ks) :
    ∀ k ∈ ks, strStartsWith k pfx = true := by
  intro k hk
  cases hf : f.idbFail with
  | false =>
    simp only [keysWithPrefix, idbKeysWithPrefix, hf, Bool.false_eq_true,
      if_false, Except.ok.injEq] at h
    subst h
    exact (List.mem_filter.mp hk).2
  | true =>
    cases hav : f.lsAvailable with
    | false =>
      simp only [keysWithPrefix, idbKeysWithPrefix, hf, if_true,
        safeLocalStorage, hav, Bool.false_eq_true, if_false,
        Except.ok.injEq] at h
      subst h
      simp at hk
    | true =>
      simp only [keysWithPrefix, idbKeysWithPrefix, hf, if_true,
        safeLocalStorage, hav, Except.ok.injEq] at h
      subst h
      simp only [lsScanWithPrefix, List.mem_filter, Bool.and_eq_true] at hk
      exact hk.2.2

/-- Claim C9 witness: a concrete fallback-path scan whose only returned key
starts with the prefix. -/
theorem C9_witness : strStartsWith "p1" "p" = true :=
  C9_every_returned_key_has_the_asked_start (Faults.mk true true false none)
    (Storage.mk [] [("p1", "x"), ("q", "y")]) "p" ["p1"] rfl "p1" (by decide)

/-- Claim C10: an empty but successful primary-tier scan is final — when the
primary scan succeeds and matches nothing, `keysWithPrefix` returns the
empty sequence, whatever the fallback tier holds (it is not consulted). -/
theorem C10_empty_primary_scan_is_final (f : Faults) (st : Storage)
    (pfx : String) (hf : f.idbFail = false)
    (h : (st.idb.map Prod.fst).filter (fun k => strStartsWith k pfx) = []) :
    keysWithPrefix f st pfx = .ok [] ∧
    ∀ ls2, keysWithPrefix f (Storage.mk st.idb ls2) pfx = .ok [] := by
  constructor
  · simp [keysWithPrefix, idbKeysWithPrefix, hf, h]
  · intro ls2
    have hrun : keysWithPrefix f (Storage.mk st.idb ls2) pfx =
        .ok ((st.idb.map Prod.fst).filter (fun k => strStartsWith k pfx)) := by
      simp [keysWithPrefix, idbKeysWithPrefix, hf]
    rw [hrun, h]

/-- Claim C10 witness: the primary tier holds only non-matching keys, the
fallback tier holds a matching one; the scan still returns the empty
sequence. -/
theorem C10_witness :
    keysWithPrefix (Faults.mk false true false none)
      (Storage.mk [("other", "c")] [("doc-3", "d")]) "doc-" = .ok [] ∧
    ∀ ls2, keysWithPrefix (Faults.mk false true false none)
      (Storage.mk [("other", "c")] ls2) "doc-" = .ok [] :=
  C10_empty_primary_scan_is_final (Faults.mk false true false none)
    (Storage.mk [("other", "c")] [("doc-3", "d")]) "doc-" rfl rfl

end ClientStorage
